import Mathlib

/-!
Verification of the jenkins-mcp-server correlation/notification core.

This file is a shallow embedding, in Lean 4, of the parts of the
repository that the claims C1..C10 are about:

* `src/services/job-tracker.ts` — the Redis-backed correlation store
  (`trackJob`, `getJobInfo`, `updateJobStatus`, `cleanupCompletedJob`);
* `src/services/webhook-handler.ts` — the webhook ingestion pipeline
  (`handleJenkinsWebhook`, `processCompletedBuild`, `sendSlackNotification`);
* `src/middleware/webhook-auth.ts` — HMAC signature verification
  (`isValidSignature`, `webhookAuthBypass`);
* `src/services/jenkins-client.ts` — the queue-polling loop of
  `triggerJob` (`waitForBuildNumber`).

Modelling conventions:

* The Redis client is modelled as an association list of key/value
  pairs plus a `connected` flag.  Each Redis command is atomic; the
  `setEx` TTL argument is recorded on the entry.  JSON
  (de)serialization is structural (a stored record reads back as
  itself), matching the only behaviour the claims depend on.
* JavaScript exceptions are modelled with `Except`; a `try`/`catch`
  that swallows the error becomes a `match` that restores the
  pre-call state.
* External collaborators (the `crypto` HMAC primitives, the axios
  POST to the Slack webhook URL, the Jenkins queue-item endpoint) are
  oracles passed in as function arguments.
* `Date.now()` is an explicit `now : Nat` argument (epoch ms).
-/

namespace JenkinsMCP

/-! ## Data model (`src/types`, `src/services/webhook-handler.ts`) -/

/-- Build lifecycle phase carried by a Jenkins notification webhook. -/
inductive Phase where
  | STARTED
  | COMPLETED
  | FINALIZED
deriving DecidableEq

/-- Terminal build status carried by a COMPLETED webhook
(`'SUCCESS' | 'FAILURE' | 'UNSTABLE' | 'ABORTED'`). -/
inductive BuildStatus where
  | SUCCESS
  | FAILURE
  | UNSTABLE
  | ABORTED
deriving DecidableEq

/-- String form of a `BuildStatus`, as stored in `JobTrackingInfo.status`. -/
def statusString : BuildStatus → String
  | .SUCCESS => "SUCCESS"
  | .FAILURE => "FAILURE"
  | .UNSTABLE => "UNSTABLE"
  | .ABORTED => "ABORTED"

/-- CallbackInfo from `webhook-handler.ts`: the Slack destination triple. -/
structure CallbackInfo where
  slackChannel : String
  slackThreadTs : String
  slackUserId : String
deriving DecidableEq

/-- Details object merged into a tracked job on update:
`{ duration: build.duration, timestamp: build.timestamp || Date.now() }`. -/
structure JobDetails where
  duration : Option Nat
  timestamp : Nat
deriving DecidableEq

/-- JobTrackingInfo from `src/types/jenkins.ts`.  `callbackInfo` is
optional in practice (the webhook handler checks `!jobInfo.callbackInfo`),
and `status` is a plain string in the source. -/
structure JobTrackingInfo where
  jobName : String
  buildNumber : Nat
  callbackInfo : Option CallbackInfo
  status : String
  timestamp : Nat
  details : Option JobDetails
deriving DecidableEq

/-! ## Correlation store (`src/services/job-tracker.ts`) -/

/-- One Redis key/value pair together with the TTL (seconds) most
recently set by `setEx`. -/
structure StoreEntry where
  key : String
  value : JobTrackingInfo
  ttl : Nat
deriving DecidableEq

/-- State of the `JobTrackerService`: the Redis connection flag
(`isConnected`) and the key space, as an association list in which a
key occurs at most once (Redis `setEx` overwrites). -/
structure RedisStore where
  connected : Bool
  entries : List StoreEntry
deriving DecidableEq

/-- Key layout: `job:{jobName}:{buildNumber}`. -/
def jobKey (jobName : String) (buildNumber : Nat) : String :=
  "job:" ++ jobName ++ ":" ++ toString buildNumber

/-- First entry with the given key, if any (Redis GET). -/
def lookupEntry : List StoreEntry → String → Option StoreEntry
  | [], _ => none
  | e :: es, k => if e.key = k then some e else lookupEntry es k

/-- Redis `setEx key ttl value`: overwrite the entry for `key` if
present, else append it. -/
def setEntry : List StoreEntry → String → JobTrackingInfo → Nat → List StoreEntry
  | [], k, v, ttl => [⟨k, v, ttl⟩]
  | e :: es, k, v, ttl =>
      if e.key = k then ⟨k, v, ttl⟩ :: es else e :: setEntry es k v ttl

/-- Redis `del key`: drop the entry for `key`; a missing key is not an
error (DEL returns 0). -/
def delEntry : List StoreEntry → String → List StoreEntry
  | [], _ => []
  | e :: es, k => if e.key = k then delEntry es k else e :: delEntry es k

/-- Error message thrown by `ensureConnection` when the client is
disconnected. -/
def notConnectedMsg : String := "Redis client not connected"

/-- `trackJob(jobInfo)`: `ensureConnection`, then
`setEx("job:{jobName}:{buildNumber}", 3600, JSON.stringify(jobInfo))`;
errors are logged and rethrown. -/
def trackJob (st : RedisStore) (info : JobTrackingInfo) : Except String RedisStore :=
  if st.connected then
    .ok { st with entries := setEntry st.entries (jobKey info.jobName info.buildNumber) info 3600 }
  else
    .error notConnectedMsg

/-- `getJobInfo(jobName, buildNumber)`: `ensureConnection` + GET inside a
`try`/`catch` that returns `null` on any failure, so a disconnected
client or an absent key both read as `none`. -/
def getJobInfo (st : RedisStore) (jobName : String) (buildNumber : Nat) :
    Option JobTrackingInfo :=
  if st.connected then
    (lookupEntry st.entries (jobKey jobName buildNumber)).map (·.value)
  else
    none

/-- `updateJobStatus(jobName, buildNumber, status, details)`:
`ensureConnection` (throws when disconnected, and the catch block
rethrows); then `getJobInfo`; when found, overwrite `status` and
`details`, refresh `timestamp`, and re-`trackJob` (refreshing the TTL);
when absent, log a warning and do nothing.  The function returns the
resulting store paired with the thrown-or-not outcome. -/
def updateJobStatus (st : RedisStore) (jobName : String) (buildNumber : Nat)
    (status : String) (details : Option JobDetails) (now : Nat) :
    RedisStore × Except String Unit :=
  if st.connected then
    match getJobInfo st jobName buildNumber with
    | some info =>
        match trackJob st { info with status := status, details := details, timestamp := now } with
        | .ok st' => (st', .ok ())
        | .error e => (st, .error e)
    | none => (st, .ok ())
  else
    (st, .error notConnectedMsg)

/-- Body of `cleanupCompletedJob` before its `catch`: `ensureConnection`
(throws when disconnected) then `del` the key. -/
def cleanupCompletedJobAttempt (st : RedisStore) (jobName : String) (buildNumber : Nat) :
    Except String RedisStore :=
  if st.connected then
    .ok { st with entries := delEntry st.entries (jobKey jobName buildNumber) }
  else
    .error notConnectedMsg

/-- `cleanupCompletedJob(jobName, buildNumber)`: the attempt wrapped in a
`try`/`catch` whose catch block only logs, so the promise always
resolves and a failure leaves the store as it was. -/
def cleanupCompletedJob (st : RedisStore) (jobName : String) (buildNumber : Nat) :
    RedisStore :=
  match cleanupCompletedJobAttempt st jobName buildNumber with
  | .ok st' => st'
  | .error _ => st

/-! ## Webhook ingestion pipeline (`src/services/webhook-handler.ts`)

The pipeline below models `handleJenkinsWebhook` from the point where
`validateInput(webhookPayloadSchema, req.body)` has produced a typed
payload; schema validation itself lives in `src/utils/validation.ts`
and is the black-box validator the claims condition on
("well-formed"). -/

/-- Validated `build` object of a webhook payload. -/
structure BuildInfo where
  number : Nat
  phase : Phase
  status : Option BuildStatus
  full_url : String
  timestamp : Option Nat
  duration : Option Nat
deriving DecidableEq

/-- Validated webhook payload `{name, build}`. -/
structure WebhookPayload where
  name : String
  build : BuildInfo
deriving DecidableEq

/-- SlackNotificationPayload from `webhook-handler.ts`: the body of the
one POST the Notifier performs. -/
structure SlackNotificationPayload where
  jobName : String
  buildNumber : Nat
  status : BuildStatus
  buildUrl : String
  callbackInfo : CallbackInfo
deriving DecidableEq

/-- Outcome of the axios POST to `config.slack.webhookUrl` (an external
collaborator, so it enters the model as an oracle). -/
inductive PostOutcome where
  | posted (httpStatus : Nat)
  | failed (message : String)
deriving DecidableEq

/-- Errors that can escape `processCompletedBuild`.  `webhookError`
models the `WebhookError` class (statusCode 400 in
`src/utils/error-handler.ts`); `otherError` models every other thrown
error (e.g. the raw `Error` rethrown by `updateJobStatus`), which
`handleError` never turns into a `WebhookError`. -/
inductive PipelineError where
  | webhookError (message source : String)
  | otherError (message : String)
deriving DecidableEq

/-- `sendSlackNotification(notification)`: one POST; on rejection the
error is wrapped as `new WebhookError("Failed to send Slack
notification: ...", 'slack')` and rethrown. -/
def sendSlackNotification (slackPost : SlackNotificationPayload → PostOutcome)
    (n : SlackNotificationPayload) : Except PipelineError Unit :=
  match slackPost n with
  | .posted _ => .ok ()
  | .failed msg =>
      .error (.webhookError ("Failed to send Slack notification: " ++ msg) "slack")

/-- JavaScript `x || d` on an optional number (`build.timestamp ||
Date.now()`): `0` is falsy. -/
def jsOr (x : Option Nat) (d : Nat) : Nat :=
  match x with
  | some t => if t = 0 then d else t
  | none => d

/-- Result of `processCompletedBuild`: the store afterwards, the Slack
notifications attempted (Notifier invocations), and the
thrown-or-returned outcome. -/
structure ProcessResult where
  store : RedisStore
  notifications : List SlackNotificationPayload
  result : Except PipelineError Unit

/-- `processCompletedBuild(payload)` for a payload whose phase gate
passed with `build.status = status`:

1. `getJobInfo(jobName, build.number)`; when `null` or without
   `callbackInfo`, log and return (no notification, no store write);
2. `sendSlackNotification(...)` — a rejection propagates (the catch
   block logs and rethrows);
3. `updateJobStatus(jobName, build.number, build.status, {duration,
   timestamp: build.timestamp || Date.now()})` — a rejection
   propagates likewise. -/
def processCompletedBuild (slackPost : SlackNotificationPayload → PostOutcome)
    (now : Nat) (st : RedisStore) (jobName : String) (build : BuildInfo)
    (status : BuildStatus) : ProcessResult :=
  match getJobInfo st jobName build.number with
  | none => ⟨st, [], .ok ()⟩
  | some info =>
      match info.callbackInfo with
      | none => ⟨st, [], .ok ()⟩
      | some cb =>
          let n : SlackNotificationPayload :=
            ⟨jobName, build.number, status, build.full_url, cb⟩
          match sendSlackNotification slackPost n with
          | .error e => ⟨st, [n], .error e⟩
          | .ok _ =>
              match updateJobStatus st jobName build.number (statusString status)
                  (some ⟨build.duration, jsOr build.timestamp now⟩) now with
              | (st', .ok _) => ⟨st', [n], .ok ()⟩
              | (st', .error e) => ⟨st', [n], .error (.otherError e)⟩

/-- HTTP response sent back to Jenkins: the 200 acknowledgement body
`{success:true, message, jobName, buildNumber, phase}`, or the error
shape produced in the catch block of `handleJenkinsWebhook`
(`WebhookError` ⇒ 400, anything else ⇒ 500). -/
inductive HttpResponse where
  | success (jobName : String) (buildNumber : Nat) (phase : Phase)
  | failure (httpStatus : Nat) (code : String)
deriving DecidableEq

/-- HTTP status code of a response (200 on the success shape). -/
def HttpResponse.statusCode : HttpResponse → Nat
  | .success _ _ _ => 200
  | .failure s _ => s

/-- Observable outcome of one webhook request: response, resulting
store, and the Notifier invocations made while handling it. -/
structure HandlerOutcome where
  response : HttpResponse
  store : RedisStore
  notifications : List SlackNotificationPayload
deriving DecidableEq

/-- `handleJenkinsWebhook(req, res)` on a validated payload: the gate
`payload.build.phase === 'COMPLETED' && payload.build.status` decides
whether `processCompletedBuild` runs; its thrown errors are caught and
classified (`instanceof WebhookError` ⇒ 400, otherwise 500); on the
no-throw path the 200 acknowledgement is sent. -/
def handleJenkinsWebhook (slackPost : SlackNotificationPayload → PostOutcome)
    (now : Nat) (st : RedisStore) (payload : WebhookPayload) : HandlerOutcome :=
  match payload.build.phase, payload.build.status with
  | .COMPLETED, some status =>
      let pr := processCompletedBuild slackPost now st payload.name payload.build status
      match pr.result with
      | .ok _ =>
          ⟨.success payload.name payload.build.number payload.build.phase,
            pr.store, pr.notifications⟩
      | .error (.webhookError _ _) =>
          ⟨.failure 400 "WEBHOOK_ERROR", pr.store, pr.notifications⟩
      | .error (.otherError _) =>
          ⟨.failure 500 "INTERNAL_ERROR", pr.store, pr.notifications⟩
  | _, _ =>
      ⟨.success payload.name payload.build.number payload.build.phase, st, []⟩

/-- Sequential processing of a list of inbound webhooks, accumulating
every Notifier invocation (used for the "under any webhook sequence"
part of the spec). -/
def processWebhooks (slackPost : SlackNotificationPayload → PostOutcome)
    (now : Nat) : RedisStore → List WebhookPayload →
    RedisStore × List SlackNotificationPayload
  | st, [] => (st, [])
  | st, p :: ps =>
      let o := handleJenkinsWebhook slackPost now st p
      let (st', ns) := processWebhooks slackPost now o.store ps
      (st', o.notifications ++ ns)

/-! ## Signature verification (`src/middleware/webhook-auth.ts`)

`isValidSignature(body, signature)` computes
`crypto.createHmac('sha256', secret).update(body).digest('hex')` and
compares it, via `crypto.timingSafeEqual` over `Buffer.from(_, 'hex')`,
with the provided signature after stripping an optional `sha256=` or
`sha1=` tag (the `sha1=` branch computes an HMAC-SHA1 instead).  The
HMAC primitives are external (`node:crypto`), so they enter the model
as oracle arguments returning byte lists; the signature header is a
character list. -/

/-- Byte, as produced by a digest. -/
abbrev Byte := Fin 256

/-- Lower-case hex digit for one nibble (Node's `digest('hex')` output
alphabet): codepoint 48 + n for 0–9, 87 + n (`a`–`f`) for 10–15. -/
def hexDig (n : Fin 16) : Char :=
  if n.val < 10 then Char.ofNat (48 + n.val) else Char.ofNat (87 + n.val)

/-- Value of one hex character, accepting both letter cases as Node's
`Buffer.from(_, 'hex')` does; `none` for a non-hex character. -/
def decodeNibble (c : Char) : Option (Fin 16) :=
  let n := c.toNat
  if h : 48 ≤ n ∧ n ≤ 57 then some ⟨n - 48, by omega⟩
  else if h : 97 ≤ n ∧ n ≤ 102 then some ⟨n - 87, by omega⟩
  else if h : 65 ≤ n ∧ n ≤ 70 then some ⟨n - 55, by omega⟩
  else none

/-- `digest('hex')`: two lower-case hex characters per byte. -/
def hexEncode : List Byte → List Char
  | [] => []
  | b :: bs =>
      hexDig ⟨b.val / 16, by omega⟩ :: hexDig ⟨b.val % 16, by omega⟩ :: hexEncode bs

/-- `Buffer.from(s, 'hex')`: decode pairs of hex characters from the
left, stopping (and discarding the rest, including a trailing half
byte) at the first character that is not valid hex — Node truncates
rather than throwing. -/
def hexDecode : List Char → List Byte
  | c1 :: c2 :: rest =>
      match decodeNibble c1, decodeNibble c2 with
      | some hi, some lo => ⟨hi.val * 16 + lo.val, by omega⟩ :: hexDecode rest
      | _, _ => []
  | _ => []

/-- `crypto.timingSafeEqual(a, b)`: throws (`.error`) when the buffer
lengths differ, otherwise reports byte equality (constant-time in the
real implementation; only the result matters here). -/
def timingSafeEqual (a b : List Byte) : Except Unit Bool :=
  if a.length = b.length then .ok (decide (a = b)) else .error ()

/-- Character list of the `'sha256='` tag. -/
def sha256Tag : List Char := ['s', 'h', 'a', '2', '5', '6', '=']

/-- Character list of the `'sha1='` tag. -/
def sha1Tag : List Char := ['s', 'h', 'a', '1', '=']

/-- `s.startsWith(pat)` combined with `s.slice(pat.length)`: `some rest`
exactly when `s = pat ++ rest`. -/
def dropLead : List Char → List Char → Option (List Char)
  | [], s => some s
  | _ :: _, [] => none
  | p :: ps, c :: cs => if c = p then dropLead ps cs else none

/-- Catch block of `isValidSignature`: a comparison that threw
(`timingSafeEqual` on buffers of different lengths) collapses to
`false`. -/
def collapseCompared : Except Unit Bool → Bool
  | .ok b => b
  | .error _ => false

/-- `isValidSignature(body, signature)`.  `hmacSha256` and `hmacSha1`
are the `node:crypto` HMAC oracles (secret → body → digest bytes).
The guard `!config.webhook.secret` fails closed on an empty secret;
the whole computation sits in a `try`/`catch` returning `false`, which
absorbs the length-mismatch throw of `timingSafeEqual`. -/
def isValidSignature (hmacSha256 hmacSha1 : String → String → List Byte)
    (secret : String) (body : String) (signature : List Char) : Bool :=
  if secret = "" then
    false
  else
    let calculatedSignature := hexEncode (hmacSha256 secret body)
    collapseCompared <|
      match dropLead sha256Tag signature with
      | some provided => timingSafeEqual (hexDecode calculatedSignature) (hexDecode provided)
      | none =>
          match dropLead sha1Tag signature with
          | some provided =>
              timingSafeEqual (hexDecode (hexEncode (hmacSha1 secret body)))
                (hexDecode provided)
          | none => timingSafeEqual (hexDecode calculatedSignature) (hexDecode signature)

/-! ## Auth bypass (`webhookAuthBypass` in `src/middleware/webhook-auth.ts`) -/

/-- Observable behaviour of an Express middleware for one request:
either it threw before calling `next()`, or it invoked `next()`. -/
inductive MiddlewareOutcome where
  | threw (message : String)
  | calledNext
deriving DecidableEq

/-- `webhookAuthBypass(req, res, next)`: throws a `WebhookError` when
`config.app.nodeEnv === 'production'`, otherwise logs a warning and
calls `next()`. -/
def webhookAuthBypass (nodeEnv : String) : MiddlewareOutcome :=
  if nodeEnv = "production" then
    .threw "Auth bypass not allowed in production"
  else
    .calledNext

/-! ## Queue polling (`waitForBuildNumber` in `src/services/jenkins-client.ts`)

The source loop is `while (Date.now() - startTime < maxWait)`, with one
`queue.item(queueId)` request per iteration (errors swallowed) and a
1000 ms sleep between iterations.  Discretizing time — each poll is
instantaneous and each sleep is exactly 1000 ms — the attempts happen
at elapsed times 0, 1000, 2000, …, so the loop makes
`⌈maxWait / 1000⌉` attempts before the timeout throw.  The queue-item
endpoint is the oracle `poll`, mapping the attempt index to the
`executable.number` it exposes, if any (`none` also covers a request
error, which the source swallows). -/

/-- Number of poll attempts the loop performs: `⌈maxWait / 1000⌉`. -/
def pollAttempts (maxWait : Nat) : Nat := (maxWait + 999) / 1000

/-- Polling loop on the remaining attempt budget; returns the loop
outcome paired with the number of attempts actually made. -/
def waitSteps (poll : Nat → Option Nat) (queueId : Nat) :
    Nat → Nat → Except String Nat × Nat
  | attempt, 0 =>
      (.error ("Timeout waiting for build number for queue item " ++ toString queueId),
        attempt)
  | attempt, steps + 1 =>
      match poll attempt with
      | some n => (.ok n, attempt + 1)
      | none => waitSteps poll queueId (attempt + 1) steps

/-- `waitForBuildNumber(queueId, maxWait = 30000)`. -/
def waitForBuildNumber (poll : Nat → Option Nat) (queueId : Nat)
    (maxWait : Nat := 30000) : Except String Nat × Nat :=
  waitSteps poll queueId 0 (pollAttempts maxWait)

/-- Result object of `triggerJob`. -/
structure JenkinsBuildResult where
  buildNumber : Nat
  queueId : Nat
  jobName : String
  status : String
deriving DecidableEq

/-- `triggerJob(jobName, parameters)` after the build endpoint returned
`queueId`: wait for the executable build number, then return the
result; the catch block logs and rethrows, so the timeout error
propagates unchanged. -/
def triggerJob (queueId : Nat) (poll : Nat → Option Nat) (jobName : String) :
    Except String JenkinsBuildResult :=
  match (waitForBuildNumber poll queueId).fst with
  | .ok n => .ok ⟨n, queueId, jobName, "TRIGGERED"⟩
  | .error e => .error e

/-! ## Concrete instances and invariants used by the theorems -/

/-- Stand-in HMAC-SHA256 oracle for concrete counterexamples and
witnesses: a 32-byte digest (the real output length) that depends on
secret and body so that distinct bodies can have distinct digests. -/
def hmacSha256Sample : String → String → List Byte :=
  fun secret body =>
    List.replicate 32 ⟨(secret.length * 100 + body.length * 71) % 256, by omega⟩

/-- Stand-in HMAC-SHA1 oracle: a 20-byte digest (the real output
length). -/
def hmacSha1Sample : String → String → List Byte :=
  fun secret body =>
    List.replicate 20 ⟨(secret.length * 17 + body.length * 3) % 256, by omega⟩

/-- Well-formed store: every entry sits under the key computed from its
own record, which is true of everything `trackJob` ever writes (it
derives the key from `jobInfo.jobName`/`jobInfo.buildNumber`). -/
def wellFormedStore (st : RedisStore) : Prop :=
  ∀ e ∈ st.entries, e.key = jobKey e.value.jobName e.value.buildNumber

/-- The tracked entry for a key, when present, has no `callbackInfo`. -/
def noCallbackAt (st : RedisStore) (k : String) : Prop :=
  ∀ e, lookupEntry st.entries k = some e → e.value.callbackInfo = none

/-! ## Store lemmas -/

/-- Characterization of a lookup after `setEx`: the written key now maps
to the written entry, every other key is untouched. -/
theorem lookupEntry_setEntry (es : List StoreEntry) (k : String)
    (v : JobTrackingInfo) (ttl : Nat) (k' : String) :
    lookupEntry (setEntry es k v ttl) k' =
      if k' = k then some ⟨k, v, ttl⟩ else lookupEntry es k' := by
  induction es with
  | nil =>
      simp only [setEntry, lookupEntry]
      by_cases h : k' = k
      · rw [if_pos h.symm, if_pos h]
      · rw [if_neg (fun hh : k = k' => h hh.symm), if_neg h]
  | cons e es ih =>
      simp only [setEntry]
      by_cases he : e.key = k
      · rw [if_pos he]
        simp only [lookupEntry]
        by_cases h : k' = k
        · rw [if_pos h.symm, if_pos h]
        · rw [if_neg (fun hh : k = k' => h hh.symm), if_neg h,
            if_neg (fun hh : e.key = k' => h (hh.symm.trans he))]
      · rw [if_neg he]
        simp only [lookupEntry]
        by_cases h2 : e.key = k'
        · rw [if_pos h2, if_neg (fun hh : k' = k => he (h2.trans hh)), if_pos h2]
        · rw [if_neg h2, ih, if_neg h2]

/-- Every entry of the list after `setEx` is either the written entry or
one of the previous entries. -/
theorem mem_setEntry (es : List StoreEntry) (k : String) (v : JobTrackingInfo)
    (ttl : Nat) (e : StoreEntry) (he : e ∈ setEntry es k v ttl) :
    e = ⟨k, v, ttl⟩ ∨ e ∈ es := by
  induction es with
  | nil => simpa [setEntry] using he
  | cons e0 es ih =>
      simp only [setEntry] at he
      by_cases h0 : e0.key = k
      · rw [if_pos h0] at he
        rcases List.mem_cons.mp he with h | h
        · exact Or.inl h
        · exact Or.inr (List.mem_cons_of_mem _ h)
      · rw [if_neg h0] at he
        rcases List.mem_cons.mp he with h | h
        · exact Or.inr (h ▸ List.mem_cons_self _ _)
        · rcases ih h with h | h
          · exact Or.inl h
          · exact Or.inr (List.mem_cons_of_mem _ h)

/-- Deleting a key that is not present leaves the list unchanged. -/
theorem delEntry_of_absent (es : List StoreEntry) (k : String)
    (h : lookupEntry es k = none) : delEntry es k = es := by
  induction es with
  | nil => rfl
  | cons e es ih =>
      simp only [lookupEntry] at h
      by_cases he : e.key = k
      · rw [if_pos he] at h; cases h
      · rw [if_neg he] at h
        simp only [delEntry, if_neg he, ih h]

/-- A found entry carries the key it was looked up under. -/
theorem lookupEntry_key (es : List StoreEntry) (k : String) (e : StoreEntry)
    (h : lookupEntry es k = some e) : e.key = k := by
  induction es with
  | nil => cases h
  | cons e0 es ih =>
      simp only [lookupEntry] at h
      by_cases h0 : e0.key = k
      · rw [if_pos h0] at h
        cases h; exact h0
      · rw [if_neg h0] at h
        exact ih h

/-- `getJobInfo` only answers on a connected store. -/
theorem getJobInfo_connected (st : RedisStore) (j : String) (b : Nat)
    (info : JobTrackingInfo) (h : getJobInfo st j b = some info) :
    st.connected = true := by
  by_cases hc : st.connected
  · exact hc
  · simp [getJobInfo, hc] at h

/-! ## Claim C8 — `updateStatus` on an absent key is a no-op -/

/-- C8: for every (jobName, buildNumber) with no entry in the store,
`updateJobStatus` leaves the store exactly as it was — no entry is
created for that key and every other entry is unchanged (this holds
whether or not the client is connected: a disconnected client throws
before touching the store). -/
theorem claim_C8_theorem (st : RedisStore) (j : String) (b : Nat)
    (status : String) (details : Option JobDetails) (now : Nat)
    (h : lookupEntry st.entries (jobKey j b) = none) :
    (updateJobStatus st j b status details now).fst = st := by
  by_cases hc : st.connected
  · simp [updateJobStatus, hc, getJobInfo, h]
  · simp [updateJobStatus, hc]

/-- Witness for C8: updating an untracked build in a concrete one-entry
store changes nothing. -/
theorem claim_C8_witness :
    lookupEntry (RedisStore.mk true
        [⟨jobKey "other" 1, ⟨"other", 1, none, "PENDING", 0, none⟩, 3600⟩]).entries
        (jobKey "deploy" 42) = none ∧
      (updateJobStatus
        (RedisStore.mk true
          [⟨jobKey "other" 1, ⟨"other", 1, none, "PENDING", 0, none⟩, 3600⟩])
        "deploy" 42 "SUCCESS" none 5).fst =
        RedisStore.mk true
          [⟨jobKey "other" 1, ⟨"other", 1, none, "PENDING", 0, none⟩, 3600⟩] :=
  ⟨by decide, claim_C8_theorem _ "deploy" 42 "SUCCESS" none 5 (by decide)⟩

/-! ## Claim C3 — status transitions are NOT guarded

The spec says a stored terminal status is never changed by a later
`updateStatus`.  The source `updateJobStatus` has no such guard: it
overwrites `status` unconditionally whenever the record exists. -/

/-- C3 counterexample: a store holding `deploy#42` with terminal status
`SUCCESS`; a subsequent `updateJobStatus(…, FAILURE)` changes the
stored status to `FAILURE`, so a terminal value does transition to a
different terminal value. -/
theorem claim_C3_counterexample :
    (lookupEntry (RedisStore.mk true
        [⟨jobKey "deploy" 42, ⟨"deploy", 42, none, "SUCCESS", 0, none⟩, 3600⟩]).entries
        (jobKey "deploy" 42)).map (fun e => e.value.status) = some "SUCCESS" ∧
      (lookupEntry
        ((updateJobStatus
          (RedisStore.mk true
            [⟨jobKey "deploy" 42, ⟨"deploy", 42, none, "SUCCESS", 0, none⟩, 3600⟩])
          "deploy" 42 "FAILURE" none 5).fst.entries)
        (jobKey "deploy" 42)).map (fun e => e.value.status) = some "FAILURE" := by
  constructor
  · decide
  · decide

/-- C3 as amended: `updateJobStatus` overwrites the stored status
unconditionally.  On a connected store, whenever the key holds a record
whose own (jobName, buildNumber) fields match its key (which is true of
every record the system writes), the record afterwards carries exactly
the new status, the new details and the refreshed timestamp — whatever
terminal or non-terminal status it carried before. -/
theorem claim_C3_theorem (st : RedisStore) (j : String) (b : Nat)
    (status : String) (details : Option JobDetails) (now : Nat) (e : StoreEntry)
    (hfound : lookupEntry st.entries (jobKey j b) = some e)
    (hname : e.value.jobName = j) (hnum : e.value.buildNumber = b)
    (hc : st.connected = true) :
    lookupEntry (updateJobStatus st j b status details now).fst.entries (jobKey j b) =
      some ⟨jobKey j b,
        { e.value with status := status, details := details, timestamp := now }, 3600⟩ := by
  have h1 : getJobInfo st j b = some e.value := by
    simp [getJobInfo, hc, hfound]
  simp only [updateJobStatus, hc, if_true, h1]
  simp only [trackJob, hc, if_true]
  rw [hname, hnum]
  simp [lookupEntry_setEntry]

/-- Witness for C3 (amended): concrete overwrite `SUCCESS → FAILURE`. -/
theorem claim_C3_witness :
    lookupEntry
        ((updateJobStatus
          (RedisStore.mk true
            [⟨jobKey "deploy" 42, ⟨"deploy", 42, none, "SUCCESS", 7, none⟩, 3600⟩])
          "deploy" 42 "FAILURE" none 5).fst.entries)
        (jobKey "deploy" 42) =
      some ⟨jobKey "deploy" 42, ⟨"deploy", 42, none, "FAILURE", 5, none⟩, 3600⟩ :=
  claim_C3_theorem _ "deploy" 42 "FAILURE" none 5
    ⟨jobKey "deploy" 42, ⟨"deploy", 42, none, "SUCCESS", 7, none⟩, 3600⟩
    (by decide) rfl rfl rfl

/-! ## Claim C10 — `cleanupCompletedJob` never raises -/

/-- C10: `cleanupCompletedJob` always resolves (its model returns a
plain store, every thrown error being consumed by its catch block), and
concretely: on a disconnected client the failure is swallowed and the
store is left as it was; on an already-absent key it resolves with the
store unchanged; on a connected store it removes exactly that key.  A
failed retirement therefore cannot, by itself, change the store into
anything the caller could observe as an error. -/
theorem claim_C10_theorem (st : RedisStore) (j : String) (b : Nat) :
    (st.connected = false → cleanupCompletedJob st j b = st) ∧
      (lookupEntry st.entries (jobKey j b) = none → cleanupCompletedJob st j b = st) ∧
      (st.connected = true →
        cleanupCompletedJob st j b =
          { st with entries := delEntry st.entries (jobKey j b) }) := by
  obtain ⟨c, es⟩ := st
  cases c
  · refine ⟨fun _ => ?_, fun _ => ?_, fun hc => ?_⟩
    · simp [cleanupCompletedJob, cleanupCompletedJobAttempt]
    · simp [cleanupCompletedJob, cleanupCompletedJobAttempt]
    · simp at hc
  · refine ⟨fun hc => ?_, fun habs => ?_, fun _ => ?_⟩
    · simp at hc
    · simp only [cleanupCompletedJob, cleanupCompletedJobAttempt]
      simp [delEntry_of_absent _ _ habs]
    · simp [cleanupCompletedJob, cleanupCompletedJobAttempt]

/-- Witness for C10: a disconnected client's cleanup failure is caught
and the concrete store is returned untouched. -/
theorem claim_C10_witness :
    cleanupCompletedJob
        (RedisStore.mk false
          [⟨jobKey "deploy" 42, ⟨"deploy", 42, none, "PENDING", 0, none⟩, 3600⟩])
        "deploy" 42 =
      RedisStore.mk false
        [⟨jobKey "deploy" 42, ⟨"deploy", 42, none, "PENDING", 0, none⟩, 3600⟩] :=
  (claim_C10_theorem _ "deploy" 42).1 rfl

/-! ## Claim C7 — the auth bypass hard-fails in production -/

/-- C7: whenever the configured environment is `production`,
`webhookAuthBypass` throws its `WebhookError` unconditionally — there
is no request, header or other input that changes this, since the
check reads only the environment — and in particular it never invokes
the downstream handler `next`. -/
theorem claim_C7_theorem (nodeEnv : String) (h : nodeEnv = "production") :
    webhookAuthBypass nodeEnv = .threw "Auth bypass not allowed in production" ∧
      webhookAuthBypass nodeEnv ≠ .calledNext := by
  subst h
  exact ⟨by simp [webhookAuthBypass], by simp [webhookAuthBypass]⟩

/-- Witness for C7 at the concrete environment string. -/
theorem claim_C7_witness :
    webhookAuthBypass "production" = .threw "Auth bypass not allowed in production" ∧
      webhookAuthBypass "production" ≠ .calledNext :=
  claim_C7_theorem "production" rfl

/-! ## Claim C9 — queue-poll timeout -/

/-- C9: for a queue item that never exposes an executable build number,
`triggerJob`'s polling loop stops after exactly `⌈maxWait / 1000⌉`
attempts — 30 attempts for the reference `maxWait = 30000`, i.e. it
terminates within the maximum wait at the loop's fixed 1 s interval —
and `triggerJob` fails with the timeout error whose text still carries
the original `queueId`. -/
theorem claim_C9_theorem (poll : Nat → Option Nat) (queueId : Nat) (jobName : String)
    (h : ∀ i, poll i = none) :
    triggerJob queueId poll jobName =
        .error ("Timeout waiting for build number for queue item " ++ toString queueId) ∧
      (waitForBuildNumber poll queueId).snd = pollAttempts 30000 ∧
      pollAttempts 30000 = 30 := by
  have key : ∀ steps attempt, waitSteps poll queueId attempt steps =
      (.error ("Timeout waiting for build number for queue item " ++ toString queueId),
        attempt + steps) := by
    intro steps
    induction steps with
    | zero => intro attempt; simp [waitSteps]
    | succ n ih =>
        intro attempt
        simp only [waitSteps, h, ih]
        have hn : attempt + 1 + n = attempt + (n + 1) := by omega
        rw [hn]
  have hw : waitForBuildNumber poll queueId =
      (.error ("Timeout waiting for build number for queue item " ++ toString queueId),
        pollAttempts 30000) := by
    simp [waitForBuildNumber, key]
  refine ⟨?_, by simp [hw], by decide⟩
  simp [triggerJob, hw]

/-- Witness for C9: the concrete never-executable oracle times out with
queue id 77 in the message after 30 polls. -/
theorem claim_C9_witness :
    triggerJob 77 (fun _ => none) "deploy" =
        .error ("Timeout waiting for build number for queue item " ++ toString 77) ∧
      (waitForBuildNumber (fun _ => none) 77).snd = pollAttempts 30000 ∧
      pollAttempts 30000 = 30 :=
  claim_C9_theorem (fun _ => none) 77 "deploy" (fun _ => rfl)

/-! ## Signature lemmas -/

/-- Decoding inverts the hex-digit table. -/
theorem decodeNibble_hexDig : ∀ n : Fin 16, decodeNibble (hexDig n) = some n := by
  decide

/-- No hex digit is the letter `s`, so a bare hex digest never matches
the `sha256=` / `sha1=` tags. -/
theorem hexDig_ne_s : ∀ n : Fin 16, hexDig n ≠ 's' := by
  decide

/-- `Buffer.from(digest('hex'), 'hex')` gives back the digest bytes. -/
theorem hexDecode_hexEncode (bs : List Byte) : hexDecode (hexEncode bs) = bs := by
  induction bs with
  | nil => rfl
  | cons b bs ih =>
      simp only [hexEncode, hexDecode, decodeNibble_hexDig]
      rw [ih]
      congr 1
      apply Fin.ext
      simp
      omega

/-- Stripping a tag off a string that carries it yields the rest. -/
theorem dropLead_append (p s : List Char) : dropLead p (p ++ s) = some s := by
  induction p with
  | nil => rfl
  | cons c p ih => simp [dropLead, ih]

/-- A `sha1=`-tagged signature does not carry the `sha256=` tag. -/
theorem dropLead_sha256Tag_sha1 (t : List Char) :
    dropLead sha256Tag (sha1Tag ++ t) = none := rfl

/-- A bare hex digest does not carry the `sha256=` tag. -/
theorem dropLead_sha256Tag_hexEncode (d : List Byte) :
    dropLead sha256Tag (hexEncode d) = none := by
  cases d with
  | nil => rfl
  | cons b bs =>
      simp only [hexEncode, sha256Tag, dropLead]
      rw [if_neg (hexDig_ne_s _)]

/-- A bare hex digest does not carry the `sha1=` tag. -/
theorem dropLead_sha1Tag_hexEncode (d : List Byte) :
    dropLead sha1Tag (hexEncode d) = none := by
  cases d with
  | nil => rfl
  | cons b bs =>
      simp only [hexEncode, sha1Tag, dropLead]
      rw [if_neg (hexDig_ne_s _)]

/-- The caught comparison reports `true` exactly on equal byte lists
(a length mismatch throws and is caught to `false`; equal lengths
compare contents). -/
theorem collapseCompared_timingSafeEqual (a b : List Byte) :
    collapseCompared (timingSafeEqual a b) = true ↔ a = b := by
  unfold timingSafeEqual
  by_cases h : a.length = b.length
  · simp [h, collapseCompared]
  · simp only [h, if_false, collapseCompared]
    simp only [Bool.false_eq_true, false_iff]
    exact fun hab => h (by rw [hab])

/-- Negative form of `collapseCompared_timingSafeEqual`. -/
theorem collapseCompared_timingSafeEqual_ne (a b : List Byte) (h : a ≠ b) :
    collapseCompared (timingSafeEqual a b) = false := by
  have := collapseCompared_timingSafeEqual a b
  rcases hb : collapseCompared (timingSafeEqual a b) with _ | _
  · rfl
  · exact absurd (this.mp hb) h

/-- Evaluation of `isValidSignature` on a `sha256=`-tagged signature. -/
theorem isValidSignature_sha256_path (h256 h1 : String → String → List Byte)
    (secret body : String) (t : List Char) (hs : secret ≠ "") :
    isValidSignature h256 h1 secret body (sha256Tag ++ t) =
      collapseCompared (timingSafeEqual (h256 secret body) (hexDecode t)) := by
  simp only [isValidSignature, if_neg hs, dropLead_append, hexDecode_hexEncode]

/-- Evaluation of `isValidSignature` on a `sha1=`-tagged signature. -/
theorem isValidSignature_sha1_path (h256 h1 : String → String → List Byte)
    (secret body : String) (t : List Char) (hs : secret ≠ "") :
    isValidSignature h256 h1 secret body (sha1Tag ++ t) =
      collapseCompared (timingSafeEqual (h1 secret body) (hexDecode t)) := by
  simp only [isValidSignature, if_neg hs, dropLead_sha256Tag_sha1, dropLead_append,
    hexDecode_hexEncode]

/-- Evaluation of `isValidSignature` on a bare hex digest. -/
theorem isValidSignature_bare_path (h256 h1 : String → String → List Byte)
    (secret body : String) (d : List Byte) (hs : secret ≠ "") :
    isValidSignature h256 h1 secret body (hexEncode d) =
      collapseCompared (timingSafeEqual (h256 secret body) (hexDecode (hexEncode d))) := by
  simp only [isValidSignature, if_neg hs, dropLead_sha256Tag_hexEncode,
    dropLead_sha1Tag_hexEncode, hexDecode_hexEncode]

/-! ## Claim C5 — which encodings verify

The spec claims the one HMAC-SHA256 value verifies under all three
encodings and that any single-byte mutation of body or signature
invalidates.  In the source, the `sha1=` branch recomputes an
HMAC-SHA1 and compares against that, so the HMAC-SHA256 digest behind
a `sha1=` tag is rejected (already by buffer length, 32 vs 20 bytes);
and Node's hex decoding is case-insensitive, so flipping the case of a
hex letter in the signature is a single-byte mutation that still
verifies. -/

/-- C5 counterexample: with 32- and 20-byte HMAC oracles, the freshly
computed HMAC-SHA256 value presented as `sha1=<hex>` does NOT verify;
and mutating one signature byte (`b` → `B` in the first digest byte's
hex) still verifies even though the signature text changed. -/
theorem claim_C5_counterexample :
    isValidSignature hmacSha256Sample hmacSha1Sample "s" "b"
        (sha1Tag ++ hexEncode (hmacSha256Sample "s" "b")) = false ∧
      ('a' :: 'B' :: hexEncode (List.replicate 31 (171 : Byte))) ≠
        hexEncode (hmacSha256Sample "s" "b") ∧
      isValidSignature hmacSha256Sample hmacSha1Sample "s" "b"
        (sha256Tag ++ 'a' :: 'B' :: hexEncode (List.replicate 31 (171 : Byte))) = true := by
  refine ⟨by decide, by decide, by decide⟩

/-- C5 as amended: a fresh HMAC-SHA256 signature verifies when presented
as `sha256=<hex>` or as a bare hex digest; the `sha1=<hex>` encoding
instead carries (and verifies) the HMAC-SHA1 of the body; any signature
whose hex part no longer decodes to the HMAC-SHA256 digest — in
particular any mutation that changes the decoded bytes — is rejected,
as is the original signature against any body whose digest differs
(single-byte body mutations under the standard collision-resistance
assumption, stated here as the digest inequality hypothesis). -/
theorem claim_C5_theorem (h256 h1 : String → String → List Byte)
    (secret body body' : String) (t : List Char) (hs : secret ≠ "")
    (ht : hexDecode t ≠ h256 secret body)
    (hd : h256 secret body' ≠ h256 secret body) :
    isValidSignature h256 h1 secret body
        (sha256Tag ++ hexEncode (h256 secret body)) = true ∧
      isValidSignature h256 h1 secret body (hexEncode (h256 secret body)) = true ∧
      isValidSignature h256 h1 secret body
        (sha1Tag ++ hexEncode (h1 secret body)) = true ∧
      isValidSignature h256 h1 secret body (sha256Tag ++ t) = false ∧
      isValidSignature h256 h1 secret body'
        (sha256Tag ++ hexEncode (h256 secret body)) = false := by
  refine ⟨?_, ?_, ?_, ?_, ?_⟩
  · rw [isValidSignature_sha256_path _ _ _ _ _ hs, hexDecode_hexEncode]
    exact (collapseCompared_timingSafeEqual _ _).mpr rfl
  · rw [isValidSignature_bare_path _ _ _ _ _ hs, hexDecode_hexEncode]
    exact (collapseCompared_timingSafeEqual _ _).mpr rfl
  · rw [isValidSignature_sha1_path _ _ _ _ _ hs, hexDecode_hexEncode]
    exact (collapseCompared_timingSafeEqual _ _).mpr rfl
  · rw [isValidSignature_sha256_path _ _ _ _ _ hs]
    exact collapseCompared_timingSafeEqual_ne _ _ (fun hh => ht hh.symm)
  · rw [isValidSignature_sha256_path _ _ _ _ _ hs, hexDecode_hexEncode]
    exact collapseCompared_timingSafeEqual_ne _ _ hd

/-- Witness for C5 (amended) at concrete oracles, secret, bodies and a
concrete non-matching signature tail. -/
theorem claim_C5_witness :
    isValidSignature hmacSha256Sample hmacSha1Sample "s" "b"
        (sha256Tag ++ hexEncode (hmacSha256Sample "s" "b")) = true ∧
      isValidSignature hmacSha256Sample hmacSha1Sample "s" "b"
        (hexEncode (hmacSha256Sample "s" "b")) = true ∧
      isValidSignature hmacSha256Sample hmacSha1Sample "s" "b"
        (sha1Tag ++ hexEncode (hmacSha1Sample "s" "b")) = true ∧
      isValidSignature hmacSha256Sample hmacSha1Sample "s" "b"
        (sha256Tag ++ ['0', '0']) = false ∧
      isValidSignature hmacSha256Sample hmacSha1Sample "s" "cc"
        (sha256Tag ++ hexEncode (hmacSha256Sample "s" "b")) = false :=
  claim_C5_theorem hmacSha256Sample hmacSha1Sample "s" "b" "cc" ['0', '0']
    (by decide) (by decide) (by decide)

/-! ## Claim C6 — verification is total and fails closed -/

/-- C6: `isValidSignature` returns a boolean for every input (it is a
total function into `Bool`, every internal throw being collapsed by its
catch block); with an empty/absent secret it returns `false` for every
body and signature; and it returns `true` only when the signature is
one of the three well-formed encodings whose hex part decodes exactly
to the appropriate freshly computed digest — so every malformed-header,
non-hex, wrong-length or wrong-digest path yields `false`, never
`true`. -/
theorem claim_C6_theorem (h256 h1 : String → String → List Byte) :
    (∀ body signature, isValidSignature h256 h1 "" body signature = false) ∧
      (∀ secret body signature,
        isValidSignature h256 h1 secret body signature = true →
        secret ≠ "" ∧
          ((∃ t, dropLead sha256Tag signature = some t ∧
              hexDecode t = h256 secret body) ∨
            (∃ t, dropLead sha256Tag signature = none ∧
              dropLead sha1Tag signature = some t ∧ hexDecode t = h1 secret body) ∨
            (dropLead sha256Tag signature = none ∧ dropLead sha1Tag signature = none ∧
              hexDecode signature = h256 secret body))) := by
  constructor
  · intro body signature
    simp [isValidSignature]
  · intro secret body signature hv
    by_cases hs : secret = ""
    · rw [hs] at hv
      simp [isValidSignature] at hv
    refine ⟨hs, ?_⟩
    simp only [isValidSignature, if_neg hs] at hv
    rcases h2 : dropLead sha256Tag signature with _ | t2
    · rcases h1' : dropLead sha1Tag signature with _ | t1
      · simp only [h2, h1', hexDecode_hexEncode] at hv
        exact Or.inr (Or.inr ⟨rfl, rfl, ((collapseCompared_timingSafeEqual _ _).mp hv).symm⟩)
      · simp only [h2, h1', hexDecode_hexEncode] at hv
        exact Or.inr (Or.inl ⟨t1, rfl, rfl,
          ((collapseCompared_timingSafeEqual _ _).mp hv).symm⟩)
    · simp only [h2, hexDecode_hexEncode] at hv
      exact Or.inl ⟨t2, rfl, ((collapseCompared_timingSafeEqual _ _).mp hv).symm⟩

/-- Witness for C6: the empty-secret clause at a concrete signature, and
the soundness clause applied to a concretely verifying bare signature. -/
theorem claim_C6_witness :
    isValidSignature hmacSha256Sample hmacSha1Sample "" "b"
        (hexEncode (hmacSha256Sample "" "b")) = false ∧
      ("s" ≠ "" ∧
        ((∃ t, dropLead sha256Tag (hexEncode (hmacSha256Sample "s" "b")) = some t ∧
            hexDecode t = hmacSha256Sample "s" "b") ∨
          (∃ t, dropLead sha256Tag (hexEncode (hmacSha256Sample "s" "b")) = none ∧
            dropLead sha1Tag (hexEncode (hmacSha256Sample "s" "b")) = some t ∧
            hexDecode t = hmacSha1Sample "s" "b") ∨
          (dropLead sha256Tag (hexEncode (hmacSha256Sample "s" "b")) = none ∧
            dropLead sha1Tag (hexEncode (hmacSha256Sample "s" "b")) = none ∧
            hexDecode (hexEncode (hmacSha256Sample "s" "b")) =
              hmacSha256Sample "s" "b"))) :=
  ⟨(claim_C6_theorem hmacSha256Sample hmacSha1Sample).1 "b"
      (hexEncode (hmacSha256Sample "" "b")),
    (claim_C6_theorem hmacSha256Sample hmacSha1Sample).2 "s" "b"
      (hexEncode (hmacSha256Sample "s" "b")) (by decide)⟩

/-! ## Pipeline lemmas -/

/-- An entry found by `lookupEntry` is a member of the list. -/
theorem lookupEntry_mem (es : List StoreEntry) (k : String) (e : StoreEntry)
    (h : lookupEntry es k = some e) : e ∈ es := by
  induction es with
  | nil => cases h
  | cons e0 es ih =>
      simp only [lookupEntry] at h
      by_cases h0 : e0.key = k
      · rw [if_pos h0] at h
        cases h
        exact List.mem_cons_self _ _
      · rw [if_neg h0] at h
        exact List.mem_cons_of_mem _ (ih h)

/-- A successful `getJobInfo` exposes the underlying entry. -/
theorem getJobInfo_some_entry (st : RedisStore) (j : String) (b : Nat)
    (info : JobTrackingInfo) (h : getJobInfo st j b = some info) :
    st.connected = true ∧
      ∃ e, lookupEntry st.entries (jobKey j b) = some e ∧ e.value = info := by
  have hc := getJobInfo_connected st j b info h
  refine ⟨hc, ?_⟩
  simp only [getJobInfo, hc, if_true] at h
  rcases he : lookupEntry st.entries (jobKey j b) with _ | e
  · rw [he] at h; cases h
  · rw [he] at h
    exact ⟨e, rfl, by simpa using h⟩

/-- Evaluation of `updateJobStatus` when the record is present: the
tracked record is re-put (overwritten status/details, refreshed
timestamp and TTL) under the key derived from its own fields, and
nothing is thrown. -/
theorem updateJobStatus_of_found (st : RedisStore) (j : String) (b : Nat)
    (status : String) (details : Option JobDetails) (now : Nat)
    (info : JobTrackingInfo) (hg : getJobInfo st j b = some info) :
    updateJobStatus st j b status details now =
      ({ st with
          entries :=
            setEntry st.entries (jobKey info.jobName info.buildNumber)
              { info with status := status, details := details, timestamp := now } 3600 },
        .ok ()) := by
  have hc := getJobInfo_connected st j b info hg
  simp only [updateJobStatus, hc, if_true, hg, trackJob]

/-- `updateJobStatus` never erases a key: any key present before is
present after (the only write is a `setEx`). -/
theorem updateJobStatus_preserves_key (st : RedisStore) (j : String) (b : Nat)
    (status : String) (details : Option JobDetails) (now : Nat) (k : String)
    (h : (lookupEntry st.entries k).isSome) :
    (lookupEntry (updateJobStatus st j b status details now).fst.entries k).isSome := by
  by_cases hc : st.connected
  · rcases hg : getJobInfo st j b with _ | info
    · simp only [updateJobStatus, hc, if_true, hg]
      simpa using h
    · rw [updateJobStatus_of_found st j b status details now info hg]
      simp only [lookupEntry_setEntry]
      by_cases hk : k = jobKey info.jobName info.buildNumber
      · simp [hk]
      · simpa [hk] using h
  · simp only [updateJobStatus, hc]
    simpa using h

/-- `updateJobStatus` preserves store well-formedness: the record it
re-puts keeps its (jobName, buildNumber) fields and is re-keyed from
them. -/
theorem updateJobStatus_wellFormed (st : RedisStore) (j : String) (b : Nat)
    (status : String) (details : Option JobDetails) (now : Nat)
    (hwf : wellFormedStore st) :
    wellFormedStore (updateJobStatus st j b status details now).fst := by
  by_cases hc : st.connected
  · rcases hg : getJobInfo st j b with _ | info
    · simp only [updateJobStatus, hc, if_true, hg]
      exact hwf
    · rw [updateJobStatus_of_found st j b status details now info hg]
      intro e he
      rcases mem_setEntry _ _ _ _ _ he with h | h
      · rw [h]
      · exact hwf e h
  · simp only [updateJobStatus, hc]
    exact hwf

/-- On a well-formed store, `updateJobStatus` writes only under the key
its record was found at; every other key reads as before. -/
theorem updateJobStatus_lookup_other (st : RedisStore) (j : String) (b : Nat)
    (status : String) (details : Option JobDetails) (now : Nat) (k : String)
    (hwf : wellFormedStore st) (hk : k ≠ jobKey j b) :
    lookupEntry (updateJobStatus st j b status details now).fst.entries k =
      lookupEntry st.entries k := by
  by_cases hc : st.connected
  · rcases hg : getJobInfo st j b with _ | info
    · simp only [updateJobStatus, hc, if_true, hg]
    · rw [updateJobStatus_of_found st j b status details now info hg]
      obtain ⟨-, e, he, hev⟩ := getJobInfo_some_entry st j b info hg
      have hkey : jobKey info.jobName info.buildNumber = jobKey j b := by
        have h1 := lookupEntry_key _ _ _ he
        have h2 := hwf e (lookupEntry_mem _ _ _ he)
        rw [← hev, ← h2, h1]
      simp only [lookupEntry_setEntry, hkey]
      rw [if_neg hk]
  · simp [updateJobStatus, hc]

/-- Evaluation of `processCompletedBuild` on an untracked build. -/
theorem processCompletedBuild_untracked
    (slackPost : SlackNotificationPayload → PostOutcome) (now : Nat) (st : RedisStore)
    (j : String) (build : BuildInfo) (status : BuildStatus)
    (hg : getJobInfo st j build.number = none) :
    processCompletedBuild slackPost now st j build status = ⟨st, [], .ok ()⟩ := by
  simp only [processCompletedBuild, hg]

/-- Evaluation of `processCompletedBuild` on a tracked build without
callback info. -/
theorem processCompletedBuild_noCallback
    (slackPost : SlackNotificationPayload → PostOutcome) (now : Nat) (st : RedisStore)
    (j : String) (build : BuildInfo) (status : BuildStatus) (info : JobTrackingInfo)
    (hg : getJobInfo st j build.number = some info) (hcb : info.callbackInfo = none) :
    processCompletedBuild slackPost now st j build status = ⟨st, [], .ok ()⟩ := by
  simp only [processCompletedBuild, hg, hcb]

/-- Evaluation of `processCompletedBuild` when the Slack POST fails: the
`WebhookError` propagates and the store is untouched — the failure
happens strictly before the `updateJobStatus` step. -/
theorem processCompletedBuild_postFailed
    (slackPost : SlackNotificationPayload → PostOutcome) (now : Nat) (st : RedisStore)
    (j : String) (build : BuildInfo) (status : BuildStatus) (info : JobTrackingInfo)
    (cb : CallbackInfo) (msg : String)
    (hg : getJobInfo st j build.number = some info) (hcb : info.callbackInfo = some cb)
    (hfail : slackPost ⟨j, build.number, status, build.full_url, cb⟩ = .failed msg) :
    processCompletedBuild slackPost now st j build status =
      ⟨st, [⟨j, build.number, status, build.full_url, cb⟩],
        .error (.webhookError ("Failed to send Slack notification: " ++ msg) "slack")⟩ := by
  simp only [processCompletedBuild, hg, hcb, sendSlackNotification, hfail]

/-- Evaluation of `processCompletedBuild` when the Slack POST succeeds:
notify once, then update the tracked record in place — and nothing else;
in particular no deletion of any store key. -/
theorem processCompletedBuild_postOk
    (slackPost : SlackNotificationPayload → PostOutcome) (now : Nat) (st : RedisStore)
    (j : String) (build : BuildInfo) (status : BuildStatus) (info : JobTrackingInfo)
    (cb : CallbackInfo) (code : Nat)
    (hg : getJobInfo st j build.number = some info) (hcb : info.callbackInfo = some cb)
    (hpost : slackPost ⟨j, build.number, status, build.full_url, cb⟩ = .posted code) :
    processCompletedBuild slackPost now st j build status =
      ⟨{ st with
          entries :=
            setEntry st.entries (jobKey info.jobName info.buildNumber)
              { info with
                status := statusString status,
                details := some ⟨build.duration, jsOr build.timestamp now⟩,
                timestamp := now } 3600 },
        [⟨j, build.number, status, build.full_url, cb⟩], .ok ()⟩ := by
  simp only [processCompletedBuild, hg, hcb, sendSlackNotification, hpost]
  rw [updateJobStatus_of_found st j build.number (statusString status)
    (some ⟨build.duration, jsOr build.timestamp now⟩) now info hg]
  rw [hcb]

/-- One webhook request preserves the store invariants and produces no
notification for a (jobName, buildNumber) whose tracked entry carries
no callback: well-formedness survives, the key stays callback-free, and
every Notifier invocation names some other build. -/
theorem handleJenkinsWebhook_invariants
    (slackPost : SlackNotificationPayload → PostOutcome) (now : Nat) (st : RedisStore)
    (payload : WebhookPayload) (j : String) (b : Nat)
    (hwf : wellFormedStore st) (hnc : noCallbackAt st (jobKey j b)) :
    wellFormedStore (handleJenkinsWebhook slackPost now st payload).store ∧
      noCallbackAt (handleJenkinsWebhook slackPost now st payload).store (jobKey j b) ∧
      ∀ n ∈ (handleJenkinsWebhook slackPost now st payload).notifications,
        ¬(n.jobName = j ∧ n.buildNumber = b) := by
  rcases hp : payload.build.phase with _ | _ | _ <;>
    rcases hs : payload.build.status with _ | status <;>
      simp only [handleJenkinsWebhook, hp, hs]
  case COMPLETED.some =>
    rcases hg : getJobInfo st payload.name payload.build.number with _ | info
    · rw [processCompletedBuild_untracked slackPost now st payload.name payload.build
        status hg]
      exact ⟨hwf, hnc, by simp⟩
    · rcases hcb : info.callbackInfo with _ | cb
      · rw [processCompletedBuild_noCallback slackPost now st payload.name payload.build
          status info hg hcb]
        exact ⟨hwf, hnc, by simp⟩
      · have hnotif : ∀ n ∈ [(⟨payload.name, payload.build.number, status,
            payload.build.full_url, cb⟩ : SlackNotificationPayload)],
            ¬(n.jobName = j ∧ n.buildNumber = b) := by
          rintro n hn ⟨hnj, hnb⟩
          rcases List.mem_singleton.mp hn with rfl
          simp only at hnj hnb
          rw [hnj, hnb] at hg
          obtain ⟨-, e, he, hev⟩ := getJobInfo_some_entry st j b info hg
          have := hnc e he
          rw [hev, hcb] at this
          cases this
        obtain ⟨-, e0, he0, hev0⟩ :=
          getJobInfo_some_entry st payload.name payload.build.number info hg
        have hkw : jobKey info.jobName info.buildNumber =
            jobKey payload.name payload.build.number := by
          have h1 := lookupEntry_key _ _ _ he0
          have h2 := hwf e0 (lookupEntry_mem _ _ _ he0)
          rw [← hev0, ← h2, h1]
        have hkne : jobKey payload.name payload.build.number ≠ jobKey j b := by
          intro hk
          rw [hk] at he0
          have := hnc e0 he0
          rw [hev0, hcb] at this
          cases this
        rcases hpost : slackPost ⟨payload.name, payload.build.number, status,
            payload.build.full_url, cb⟩ with code | msg
        · rw [processCompletedBuild_postOk slackPost now st payload.name payload.build
            status info cb code hg hcb hpost]
          refine ⟨?_, ?_, hnotif⟩
          · intro e he
            rcases mem_setEntry _ _ _ _ _ he with h | h
            · rw [h]
            · exact hwf e h
          · intro e he
            simp only [lookupEntry_setEntry, hkw] at he
            rw [if_neg (fun hh : jobKey j b = jobKey payload.name payload.build.number =>
              hkne hh.symm)] at he
            exact hnc e he
        · rw [processCompletedBuild_postFailed slackPost now st payload.name payload.build
            status info cb msg hg hcb hpost]
          exact ⟨hwf, hnc, hnotif⟩
  all_goals exact ⟨hwf, hnc, by simp⟩

/-! ## Claim C4 — no callback, no notification, no mutation -/

/-- C4: an authenticated, well-formed COMPLETED webhook whose
(jobName, buildNumber) is untracked, or tracked without `callbackInfo`,
is acknowledged with the 200 success body while the Notifier is never
invoked and the store is left untouched; and across any sequence of
webhooks hitting a well-formed store, a build whose entry carries no
`callbackInfo` never has a notification attempted for it. -/
theorem claim_C4_theorem :
    (∀ (slackPost : SlackNotificationPayload → PostOutcome) (now : Nat)
      (st : RedisStore) (payload : WebhookPayload) (status : BuildStatus),
      payload.build.phase = .COMPLETED →
      payload.build.status = some status →
      (getJobInfo st payload.name payload.build.number = none ∨
        ∃ info, getJobInfo st payload.name payload.build.number = some info ∧
          info.callbackInfo = none) →
      handleJenkinsWebhook slackPost now st payload =
        ⟨.success payload.name payload.build.number Phase.COMPLETED, st, []⟩) ∧
      (∀ (slackPost : SlackNotificationPayload → PostOutcome) (now : Nat)
        (st : RedisStore) (payloads : List WebhookPayload) (j : String) (b : Nat),
        wellFormedStore st →
        noCallbackAt st (jobKey j b) →
        ∀ n ∈ (processWebhooks slackPost now st payloads).snd,
          ¬(n.jobName = j ∧ n.buildNumber = b)) := by
  constructor
  · intro slackPost now st payload status hp hs habs
    simp only [handleJenkinsWebhook, hp, hs]
    rcases habs with hg | ⟨info, hg, hcb⟩
    · rw [processCompletedBuild_untracked slackPost now st payload.name payload.build
        status hg]
    · rw [processCompletedBuild_noCallback slackPost now st payload.name payload.build
        status info hg hcb]
  · intro slackPost now st payloads j b hwf hnc
    induction payloads generalizing st with
    | nil => simp [processWebhooks]
    | cons p ps ih =>
        obtain ⟨hwf', hnc', hstep⟩ :=
          handleJenkinsWebhook_invariants slackPost now st p j b hwf hnc
        intro n hn
        simp only [processWebhooks] at hn
        rcases List.mem_append.mp hn with h | h
        · exact hstep n h
        · exact ih _ hwf' hnc' n h

/-- Witness for C4: a concrete COMPLETED webhook for a build tracked
without callback info is acknowledged 200 with no notification and no
store change, and a concrete two-webhook sequence produces no
notification for it. -/
theorem claim_C4_witness :
    handleJenkinsWebhook (fun _ => .posted 200) 999
        (RedisStore.mk true
          [⟨jobKey "deploy" 42, ⟨"deploy", 42, none, "PENDING", 100, none⟩, 3600⟩])
        ⟨"deploy", ⟨42, .COMPLETED, some .SUCCESS, "http://j/42", some 5, some 60000⟩⟩ =
      ⟨.success "deploy" 42 Phase.COMPLETED,
        RedisStore.mk true
          [⟨jobKey "deploy" 42, ⟨"deploy", 42, none, "PENDING", 100, none⟩, 3600⟩], []⟩ ∧
      ∀ n ∈ (processWebhooks (fun _ => .posted 200) 999
          (RedisStore.mk true
            [⟨jobKey "deploy" 42, ⟨"deploy", 42, none, "PENDING", 100, none⟩, 3600⟩])
          [⟨"deploy", ⟨42, .COMPLETED, some .SUCCESS, "http://j/42", some 5, some 60000⟩⟩,
            ⟨"deploy", ⟨42, .COMPLETED, some .FAILURE, "http://j/42", some 5, some 60000⟩⟩]).snd,
        ¬(n.jobName = "deploy" ∧ n.buildNumber = 42) :=
  ⟨claim_C4_theorem.1 (fun _ => .posted 200) 999 _ _ .SUCCESS rfl rfl
      (Or.inr ⟨⟨"deploy", 42, none, "PENDING", 100, none⟩, by decide, rfl⟩),
    claim_C4_theorem.2 (fun _ => .posted 200) 999 _ _ "deploy" 42
      (by
        intro e he
        rcases List.mem_singleton.mp he with rfl
        rfl)
      (by
        intro e he
        simp only [lookupEntry, if_true] at he
        cases he
        rfl)⟩

/-! ## Claim C1 — completed builds are NOT retired from the store

The spec says the pipeline deletes the tracked entry for terminal
status SUCCESS/FAILURE/ABORTED before responding 200.  In the source,
`processCompletedBuild` never calls `cleanupCompletedJob` (which exists
on the job tracker but has no caller in the pipeline), so no terminal
status retires the entry: it is updated in place and left to expire via
TTL. -/

/-- C1 counterexample: the end-to-end SUCCESS scenario — tracked job
`deploy#42` with callback info, valid COMPLETED/SUCCESS webhook, Slack
POST succeeding — responds 200 but the store still holds the entry
(updated to SUCCESS), where the claim requires it removed. -/
theorem claim_C1_counterexample :
    (handleJenkinsWebhook (fun _ => .posted 200) 999
        (RedisStore.mk true
          [⟨jobKey "deploy" 42,
            ⟨"deploy", 42, some ⟨"#chan", "123.45", "U1"⟩, "PENDING", 100, none⟩, 3600⟩])
        ⟨"deploy", ⟨42, .COMPLETED, some .SUCCESS, "http://j/42", some 5, some 60000⟩⟩).response =
      .success "deploy" 42 Phase.COMPLETED ∧
      ((lookupEntry
        (handleJenkinsWebhook (fun _ => .posted 200) 999
          (RedisStore.mk true
            [⟨jobKey "deploy" 42,
              ⟨"deploy", 42, some ⟨"#chan", "123.45", "U1"⟩, "PENDING", 100, none⟩, 3600⟩])
          ⟨"deploy", ⟨42, .COMPLETED, some .SUCCESS, "http://j/42", some 5,
            some 60000⟩⟩).store.entries
        (jobKey "deploy" 42)).map (fun e => e.value.status)) = some "SUCCESS" := by
  constructor
  · decide
  · decide

/-- C1 as amended: the pipeline never removes a correlation-store entry
for any webhook and any terminal status — every key present before the
request is still present after it (UNSTABLE and SUCCESS/FAILURE/ABORTED
alike); retirement simply does not happen, entries only leave the store
by TTL expiry. -/
theorem claim_C1_theorem (slackPost : SlackNotificationPayload → PostOutcome)
    (now : Nat) (st : RedisStore) (payload : WebhookPayload) (k : String)
    (h : (lookupEntry st.entries k).isSome) :
    (lookupEntry (handleJenkinsWebhook slackPost now st payload).store.entries k).isSome := by
  rcases hp : payload.build.phase with _ | _ | _ <;>
    rcases hs : payload.build.status with _ | status <;>
      simp only [handleJenkinsWebhook, hp, hs]
  case COMPLETED.some =>
    rcases hg : getJobInfo st payload.name payload.build.number with _ | info
    · rw [processCompletedBuild_untracked slackPost now st payload.name payload.build
        status hg]
      exact h
    · rcases hcb : info.callbackInfo with _ | cb
      · rw [processCompletedBuild_noCallback slackPost now st payload.name payload.build
          status info hg hcb]
        exact h
      · rcases hpost : slackPost ⟨payload.name, payload.build.number, status,
            payload.build.full_url, cb⟩ with code | msg
        · rw [processCompletedBuild_postOk slackPost now st payload.name payload.build
            status info cb code hg hcb hpost]
          simp only [lookupEntry_setEntry]
          by_cases hk : k = jobKey info.jobName info.buildNumber
          · simp [hk]
          · simpa [hk] using h
        · rw [processCompletedBuild_postFailed slackPost now st payload.name payload.build
            status info cb msg hg hcb hpost]
          exact h
  all_goals exact h

/-- Witness for C1 (amended): in the concrete SUCCESS scenario the key
is still present afterwards. -/
theorem claim_C1_witness :
    (lookupEntry
      (handleJenkinsWebhook (fun _ => .posted 200) 999
        (RedisStore.mk true
          [⟨jobKey "deploy" 42,
            ⟨"deploy", 42, some ⟨"#chan", "123.45", "U1"⟩, "PENDING", 100, none⟩, 3600⟩])
        ⟨"deploy", ⟨42, .COMPLETED, some .SUCCESS, "http://j/42", some 5,
          some 60000⟩⟩).store.entries
      (jobKey "deploy" 42)).isSome :=
  claim_C1_theorem (fun _ => .posted 200) 999 _ _ (jobKey "deploy" 42) (by decide)

/-! ## Claim C2 — a failed notification aborts before the store update

The spec says the pipeline then responds HTTP 500.  In the source,
`sendSlackNotification` wraps the failure in a `WebhookError`, and the
catch block of `handleJenkinsWebhook` maps any `WebhookError` to
HTTP 400 — only non-`WebhookError` errors get 500 — so the response is
400, not 500; the store part of the claim (no update, no removal)
holds. -/

/-- C2 counterexample: the end-to-end scenario E — tracked job with
callback info, valid COMPLETED webhook, Slack POST rejecting — yields
HTTP 400 (the `WebhookError` branch), not 500, with the store left
untouched. -/
theorem claim_C2_counterexample :
    (handleJenkinsWebhook (fun _ => .failed "ECONNREFUSED") 999
        (RedisStore.mk true
          [⟨jobKey "deploy" 42,
            ⟨"deploy", 42, some ⟨"#chan", "123.45", "U1"⟩, "PENDING", 100, none⟩, 3600⟩])
        ⟨"deploy", ⟨42, .COMPLETED, some .SUCCESS, "http://j/42", some 5,
          some 60000⟩⟩).response.statusCode = 400 ∧
      (handleJenkinsWebhook (fun _ => .failed "ECONNREFUSED") 999
        (RedisStore.mk true
          [⟨jobKey "deploy" 42,
            ⟨"deploy", 42, some ⟨"#chan", "123.45", "U1"⟩, "PENDING", 100, none⟩, 3600⟩])
        ⟨"deploy", ⟨42, .COMPLETED, some .SUCCESS, "http://j/42", some 5,
          some 60000⟩⟩).response.statusCode ≠ 500 ∧
      (handleJenkinsWebhook (fun _ => .failed "ECONNREFUSED") 999
        (RedisStore.mk true
          [⟨jobKey "deploy" 42,
            ⟨"deploy", 42, some ⟨"#chan", "123.45", "U1"⟩, "PENDING", 100, none⟩, 3600⟩])
        ⟨"deploy", ⟨42, .COMPLETED, some .SUCCESS, "http://j/42", some 5,
          some 60000⟩⟩).store =
        RedisStore.mk true
          [⟨jobKey "deploy" 42,
            ⟨"deploy", 42, some ⟨"#chan", "123.45", "U1"⟩, "PENDING", 100, none⟩, 3600⟩] := by
  refine ⟨by decide, by decide, by decide⟩

/-- C2 as amended: when the Notifier's POST fails on an authenticated,
well-formed COMPLETED webhook whose tracked job has callback info, the
pipeline responds HTTP 400 (the `WebhookError` classification of the
notification failure), and the correlation store is neither updated nor
removed — the failure occurs strictly before the store-update step, so
the entry keeps its status, details, timestamp and TTL. -/
theorem claim_C2_theorem (slackPost : SlackNotificationPayload → PostOutcome)
    (now : Nat) (st : RedisStore) (payload : WebhookPayload) (status : BuildStatus)
    (info : JobTrackingInfo) (cb : CallbackInfo) (msg : String)
    (hp : payload.build.phase = .COMPLETED)
    (hs : payload.build.status = some status)
    (hg : getJobInfo st payload.name payload.build.number = some info)
    (hcb : info.callbackInfo = some cb)
    (hfail : slackPost ⟨payload.name, payload.build.number, status,
      payload.build.full_url, cb⟩ = .failed msg) :
    handleJenkinsWebhook slackPost now st payload =
      ⟨.failure 400 "WEBHOOK_ERROR", st,
        [⟨payload.name, payload.build.number, status, payload.build.full_url, cb⟩]⟩ := by
  simp only [handleJenkinsWebhook, hp, hs]
  rw [processCompletedBuild_postFailed slackPost now st payload.name payload.build
    status info cb msg hg hcb hfail]

/-- Witness for C2 (amended) at the concrete scenario E input. -/
theorem claim_C2_witness :
    handleJenkinsWebhook (fun _ => .failed "ECONNREFUSED") 999
        (RedisStore.mk true
          [⟨jobKey "deploy" 42,
            ⟨"deploy", 42, some ⟨"#chan", "123.45", "U1"⟩, "PENDING", 100, none⟩, 3600⟩])
        ⟨"deploy", ⟨42, .COMPLETED, some .SUCCESS, "http://j/42", some 5, some 60000⟩⟩ =
      ⟨.failure 400 "WEBHOOK_ERROR",
        RedisStore.mk true
          [⟨jobKey "deploy" 42,
            ⟨"deploy", 42, some ⟨"#chan", "123.45", "U1"⟩, "PENDING", 100, none⟩, 3600⟩],
        [⟨"deploy", 42, .SUCCESS, "http://j/42", ⟨"#chan", "123.45", "U1"⟩⟩]⟩ :=
  claim_C2_theorem (fun _ => .failed "ECONNREFUSED") 999 _ _ .SUCCESS
    ⟨"deploy", 42, some ⟨"#chan", "123.45", "U1"⟩, "PENDING", 100, none⟩
    ⟨"#chan", "123.45", "U1"⟩ "ECONNREFUSED" rfl rfl (by decide) rfl rfl

end JenkinsMCP
